import Mathlib

/-!
Verification development for the living_light LED-installation controller.

The Python sources (model_helper.py, controller_helper.py, display_helper.py,
living_light.py) are shallowly embedded below: pure numeric code is translated
to functions over ℚ (or ℝ where the source uses trigonometric functions),
Python `None` becomes `Option`, a Python statement that raises an uncaught
exception becomes `Option.none`, and the scenario-cache file system becomes an
explicit association list threaded through the operations.
-/

namespace LivingLight

/-! ### Python numeric primitives used by the source -/

/-- Python `int(x)` on a float/rational: truncation toward zero. -/
def pyIntTrunc (q : ℚ) : ℤ :=
  if 0 ≤ q then ⌊q⌋ else ⌈q⌉

/-- Python `round(x)` and NumPy `np.round(x)`: round half to even
(both use this tie-breaking rule). -/
def pyRound (q : ℚ) : ℤ :=
  if q - (⌊q⌋ : ℚ) < 1/2 then ⌊q⌋
  else if 1/2 < q - (⌊q⌋ : ℚ) then ⌊q⌋ + 1
  else if ⌊q⌋ % 2 = 0 then ⌊q⌋ else ⌊q⌋ + 1

/-- NumPy `np.clip(x, lo, hi)` on a scalar. -/
def npClip (x lo hi : ℚ) : ℚ := min (max x lo) hi

theorem pyRound_cases (q : ℚ) : pyRound q = ⌊q⌋ ∨ pyRound q = ⌊q⌋ + 1 := by
  unfold pyRound
  split
  · exact Or.inl rfl
  · split
    · exact Or.inr rfl
    · split
      · exact Or.inl rfl
      · exact Or.inr rfl

theorem pyRound_nonneg {q : ℚ} (h : 0 ≤ q) : 0 ≤ pyRound q := by
  rcases pyRound_cases q with hc | hc <;> rw [hc]
  · exact Int.floor_nonneg.mpr h
  · have := Int.floor_nonneg.mpr h
    omega

theorem pyRound_le_of_le {q : ℚ} {n : ℤ} (h : q ≤ (n : ℚ)) : pyRound q ≤ n := by
  have hfl : ⌊q⌋ ≤ n := by
    have := Int.floor_le_floor h
    simpa using this
  unfold pyRound
  split
  · exact hfl
  · rename_i hr
    push_neg at hr
    have hlt : ⌊q⌋ < n := by
      by_contra hcon
      push_neg at hcon
      have hfn : ⌊q⌋ = n := le_antisymm hfl hcon
      have hq2 : (1:ℚ)/2 ≤ q - (n : ℚ) := by
        rw [← hfn]; exact hr
      linarith
    split
    · omega
    · split
      · omega
      · omega

theorem pyRound_mem_Icc {q : ℚ} {a b : ℤ} (ha : (a : ℚ) ≤ q) (hb : q ≤ (b : ℚ)) :
    a ≤ pyRound q ∧ pyRound q ≤ b := by
  constructor
  · rcases pyRound_cases q with hc | hc <;> rw [hc]
    · exact Int.le_floor.mpr ha
    · have := Int.le_floor.mpr ha
      omega
  · exact pyRound_le_of_le hb

/-! ### Proximity index (model_helper.update_led_pattern, lines 276-282)

    p_idx = 0; if proximity.get('Entrance', False): p_idx += 1
              if proximity.get('Exit', False):     p_idx += 2        -/

def N_LED_PATTERN_PROXIMITY : ℕ := 4

/-- Proximity index computed by `update_led_pattern` from the two boolean
proximity readings. -/
def update_p_idx (entrance exit_near : Bool) : ℕ :=
  (if entrance then 1 else 0) + (if exit_near then 2 else 0)

/-! ### Distance index (model_helper.update_led_pattern, lines 284-292)

    d = np.clip(distance, 0.0, 1.0)
    d_idx = int(np.round(d * (self.N_LED_PATTERN_DISTANCE - 1)))              -/

def N_LED_PATTERN_DISTANCE : ℕ := 10

/-- Distance index computed by `update_led_pattern` from a scalar normalized
distance. `int(np.round(...))` applied to a nonnegative value is `pyRound`. -/
def update_d_idx (distance : ℚ) : ℤ :=
  pyRound (npClip distance 0 1 * (N_LED_PATTERN_DISTANCE - 1))

/-- The `distance` argument actually handed to `update_led_pattern` by the
main loop (living_light.py line 104): either the scalar float default, the
initial `None`, or the pair of per-channel optional normalized distances
returned by `normalize_distance`. -/
inductive DistReading where
  | scalar (q : ℚ)
  | absent
  | channels (left right : Option ℚ)
deriving DecidableEq

/-- Distance-index computation of `update_led_pattern` on the reading it is
actually given. On a scalar it performs clip-then-round; on `None` the call
`np.clip(None, 0.0, 1.0)` raises `TypeError` (comparison of `None` with a
float); on a channel pair it raises `TypeError` either inside `np.clip`
(when a channel is `None`) or at `int()` of a size-2 array. A raised
exception is modelled as `Option.none`. -/
def update_d_idx_reading : DistReading → Option ℤ
  | .scalar q => some (update_d_idx q)
  | .absent => none
  | .channels _ _ => none

/-- Written from the specification, for comparison with the code: reduce the
per-channel optional distances to one scalar (average of the present
channels, default 1.0 when none is present), clip to [0, 1]. -/
def spec_reduce_distance : DistReading → ℚ
  | .scalar q => npClip q 0 1
  | .absent => 1
  | .channels left right =>
      match left, right with
      | some a, some b => npClip ((a + b) / 2) 0 1
      | some a, none => npClip a 0 1
      | none, some b => npClip b 0 1
      | none, none => 1

/-! ### Timesteps per cycle (model_helper.init_model_scenario, line 195)

    self.timesteps_per_cycle = int(float(cycle_time) / self.LED_TIMESTEP_SEC) -/

/-- LED update interval: 0.05 seconds. -/
def LED_TIMESTEP_SEC : ℚ := 1/20

/-- Source `timesteps_per_cycle` as computed by `init_model_scenario`. -/
def timesteps_per_cycle_calc (cycle_time led_timestep : ℚ) : ℤ :=
  pyIntTrunc (cycle_time / led_timestep)

/-- Timestep index used by `update_led_pattern` (line 295):
`t_idx = timestep % self.timesteps_per_cycle`. -/
def update_t_idx (timestep tpc : ℕ) : ℕ := timestep % tpc

/-- Frame selection of `update_led_pattern`: the buffer slice
`led_pattern_buffer[c][p_idx][d_idx][t_idx]`. -/
def lookup_frame {α : Type} (buf : ℕ → ℤ → ℕ → α) (p : ℕ) (d : ℤ) (t tpc : ℕ) : α :=
  buf p d (update_t_idx t tpc)

/-! ### Scenario cache files (model_helper.load_or_generate_scenario, lines 202-227,
    and _generate_scenario_file, lines 230-265)

The buffer generation `_generate_scenario_file` deterministically recomputes
`led_pattern_buffer` from the scenario alone (it iterates every
proximity/distance/timestep index and every LED cell, overwriting each entry),
then writes the buffer to the file `scen_<normalized name>.npz`; it is
modelled as an arbitrary function `gen` from the scenario name to a buffer
value, and the `./data` directory as an association list from file names to
buffer values. -/

/-- Normalization `scenario.lower().replace(' ', '_')` (per-character lowering and space
replacement; scenario names in this program are ASCII). -/
def normalize_scen_name (s : String) : String :=
  String.mk (s.data.map (fun ch => if ch = ' ' then '_' else ch.toLower))

/-- The cache-file name `'scen_' + scenario_clean + '.npz'`. -/
def scenario_file_name (s : String) : String :=
  "scen_" ++ normalize_scen_name s ++ ".npz"

/-- Result of one activation: the in-memory buffer, the file store after the
call, and whether `_generate_scenario_file` ran. -/
structure ActivateResult (β : Type) where
  buffer : β
  files : List (String × β)
  generated : Bool
deriving DecidableEq

/-- Source `load_or_generate_scenario`: if the cache file exists it is loaded
(`np.load`, bit-identical to what was saved), otherwise the buffer is
generated and saved (`np.savez`). -/
def load_or_generate_scenario {β : Type} (gen : String → β)
    (files : List (String × β)) (scen : String) : ActivateResult β :=
  match files.lookup (scenario_file_name scen) with
  | some b => ⟨b, files, false⟩
  | none => ⟨gen scen, (scenario_file_name scen, gen scen) :: files, true⟩

theorem lookup_cons_self {β : Type} (k : String) (v : β) (l : List (String × β)) :
    List.lookup k ((k, v) :: l) = some v := by
  simp [List.lookup]

/-! ### Distance normalization (controller_helper.normalize_distance, lines 465-488)

    nd_left, nd_right = (None, None)
    try:
        nd_left = polys[0].convert().coef[0] + polys[0].convert().coef[1] * d[0]
    except (TypeError, AttributeError):
        nd_left = None
    nd_right = None          # right sensor no longer available
    return (nd_left, nd_right)

A fitted degree-1 polynomial in the standard basis is its pair of
coefficients (intercept, slope). Every exception path (`polys` is `None`,
`d` is `None`, `d[0]` is `None`) is caught and yields `None`. -/

structure LinPoly where
  intercept : ℚ
  slope : ℚ
deriving DecidableEq

/-- Source `normalize_distance` of controller_helper.py. The second component is the
right channel, hard-coded absent because that sensor is permanently
non-functional. -/
def normalize_distance (polys : Option LinPoly) (d : Option (Option ℚ × Option ℚ)) :
    Option ℚ × Option ℚ :=
  (match polys, d with
   | some p, some (some x, _) => some (p.intercept + p.slope * x)
   | some _, some (none, _) => none
   | some _, none => none
   | none, _ => none,
   none)

/-! ### Keypad command dispatch (living_light.py, lines 15-17 and 144-241)

    unattended_mode = True if os.environ.get('LL_UNATTENDED', 0) == 1 else False
    ...
    if ~unattended_mode and retained_pressed_keys == [1,2,3,4]: ... exit()
    elif ~unattended_mode and retained_pressed_keys == [3,4]: ... highlight
    elif ~unattended_mode and retained_pressed_keys == [2,4]: ... picker
    elif ~unattended_mode and retained_pressed_keys == [1,4]: ... calibration
    elif 3 in retained_pressed_keys: ... Energy
    elif 2 in retained_pressed_keys: ... Standard
    elif 1 in retained_pressed_keys: ... Idle

`os.environ.get` returns a `str` when the variable is set (default `0`, an
`int`), and `~` is Python's bitwise complement on the `bool`-as-`int`. -/

/-- A Python scalar as produced by `os.environ.get(key, 0)`. -/
inductive PyScalar where
  | int (n : ℤ)
  | str (s : String)
deriving DecidableEq

/-- Python `os.environ.get(key, default)` over an environment association list. -/
def environ_get (env : List (String × String)) (k : String) (dflt : PyScalar) : PyScalar :=
  match env.lookup k with
  | some v => .str v
  | none => dflt

/-- Python `==` between a scalar and the `int` literal 1: a `str` never
equals an `int`. -/
def pyEqIntOne : PyScalar → Bool
  | .int n => n == 1
  | .str _ => false

/-- Source `unattended_mode` as computed at living_light.py line 17. -/
def unattended_mode (env : List (String × String)) : Bool :=
  pyEqIntOne (environ_get env "LL_UNATTENDED" (.int 0))

/-- Python `~b` on a `bool`: bitwise complement of 0 or 1. -/
def pyBitNot (b : Bool) : ℤ := -(if b then 1 else 0) - 1

/-- Python truthiness of an `int`. -/
def pyTruthy (n : ℤ) : Bool := n != 0

/-- The action the report-processing branch performs for a retained key
combination. -/
inductive KeyCmd where
  | exitProgram
  | highlightTenth
  | pickScen
  | calibrate
  | setEnergy
  | setStandard
  | setIdle
  | noCmd
deriving DecidableEq

/-- The keypad dispatch of the main loop (living_light.py lines 150-241),
with each guard `~unattended_mode and keys == [...]` translated to the
truthiness of `~unattended_mode` conjoined with the list comparison. -/
def keypad_dispatch (unattended : Bool) (keys : List ℕ) : KeyCmd :=
  if pyTruthy (pyBitNot unattended) && keys == [1, 2, 3, 4] then .exitProgram
  else if pyTruthy (pyBitNot unattended) && keys == [3, 4] then .highlightTenth
  else if pyTruthy (pyBitNot unattended) && keys == [2, 4] then .pickScen
  else if pyTruthy (pyBitNot unattended) && keys == [1, 4] then .calibrate
  else if 3 ∈ keys then .setEnergy
  else if 2 ∈ keys then .setStandard
  else if 1 ∈ keys then .setIdle
  else .noCmd

/-! ### Color conversions (display_helper.py and Python colorsys)

`rgb_tuple_to_int` packs an RGB triple as `(r << 16) + (g << 8) + b`;
`rgb_tuple_to_hls` and `hls_to_rgb_tuple` wrap `colorsys.rgb_to_hls` /
`colorsys.hls_to_rgb` with the 0-255 ↔ 0.0-1.0 scaling; `Int.fract` embeds
the Python float modulo `% 1.0`. -/

def ONE_THIRD : ℚ := 1/3
def ONE_SIXTH : ℚ := 1/6
def TWO_THIRD : ℚ := 2/3

/-- Python `colorsys._v(m1, m2, hue)`. -/
def hls_v (m1 m2 hue : ℚ) : ℚ :=
  if Int.fract hue < ONE_SIXTH then m1 + (m2 - m1) * Int.fract hue * 6
  else if Int.fract hue < 1/2 then m2
  else if Int.fract hue < TWO_THIRD then m1 + (m2 - m1) * (TWO_THIRD - Int.fract hue) * 6
  else m1

/-- Python `colorsys.hls_to_rgb(h, l, s)`. -/
def colorsys_hls_to_rgb (h l s : ℚ) : ℚ × ℚ × ℚ :=
  if s = 0 then (l, l, l)
  else
    let m2 := if l ≤ 1/2 then l * (1 + s) else l + s - l * s
    let m1 := 2 * l - m2
    (hls_v m1 m2 (h + ONE_THIRD), hls_v m1 m2 h, hls_v m1 m2 (h - ONE_THIRD))

/-- Python `colorsys.rgb_to_hls(r, g, b)`. -/
def colorsys_rgb_to_hls (r g b : ℚ) : ℚ × ℚ × ℚ :=
  let maxc := max r (max g b)
  let minc := min r (min g b)
  let l := (minc + maxc) / 2
  if minc = maxc then (0, l, 0)
  else
    let s := if l ≤ 1/2 then (maxc - minc) / (maxc + minc)
             else (maxc - minc) / (2 - maxc - minc)
    let rc := (maxc - r) / (maxc - minc)
    let gc := (maxc - g) / (maxc - minc)
    let bc := (maxc - b) / (maxc - minc)
    let h := if r = maxc then bc - gc else if g = maxc then 2 + rc - bc else 4 + gc - rc
    (Int.fract (h / 6), l, s)

/-- Source `display_helper.rgb_tuple_to_int`. -/
def rgb_tuple_to_int (rgb : ℤ × ℤ × ℤ) : ℤ :=
  rgb.1 * 2 ^ 16 + rgb.2.1 * 2 ^ 8 + rgb.2.2

/-- Source `display_helper.rgb_tuple_to_hls`. -/
def rgb_tuple_to_hls (rgb : ℚ × ℚ × ℚ) : ℚ × ℚ × ℚ :=
  colorsys_rgb_to_hls (rgb.1 / 255) (rgb.2.1 / 255) (rgb.2.2 / 255)

/-- Source `display_helper.hls_to_rgb_tuple`: `int(round(255*x))` per channel. -/
def hls_to_rgb_tuple (hls : ℚ × ℚ × ℚ) : ℤ × ℤ × ℤ :=
  (pyRound (255 * (colorsys_hls_to_rgb hls.1 hls.2.1 hls.2.2).1),
   pyRound (255 * (colorsys_hls_to_rgb hls.1 hls.2.1 hls.2.2).2.1),
   pyRound (255 * (colorsys_hls_to_rgb hls.1 hls.2.1 hls.2.2).2.2))

/-- Helper `_helper_brightness_to_rgb_in_profile` inside `_calc_led_pattern`
(model_helper.py lines 327-330), applied to the scaled brightness
`b = b_scale * b_val`: clip the adjusted lightness to [0, 1], convert HLS to
an RGB tuple, pack it as an integer. -/
def calc_led_entry (profile_rgb : ℚ × ℚ × ℚ) (b : ℚ) : ℤ :=
  rgb_tuple_to_int (hls_to_rgb_tuple
    ((rgb_tuple_to_hls profile_rgb).1,
     npClip (b * (rgb_tuple_to_hls profile_rgb).2.1) 0 1,
     (rgb_tuple_to_hls profile_rgb).2.2))

/-- The LED pattern buffer as zero-initialized in `Model.__init__`
(model_helper.py lines 174-182). -/
def led_pattern_buffer_init : ℕ → ℕ → ℕ → ℕ → ℕ → ℤ := fun _ _ _ _ _ => 0

/-- The buffer produced by `_generate_scenario_file`: every entry is
`_helper_brightness_to_rgb_in_profile(b_scale * b_val)` for the brightness
`b_val` that the scenario's pattern function computes at that index. -/
def generate_led_buffer (profile_rgb : ℚ × ℚ × ℚ) (b_scale : ℚ)
    (patt : ℕ → ℕ → ℕ → ℕ → ℕ → ℚ) : ℕ → ℕ → ℕ → ℕ → ℕ → ℤ :=
  fun p d t r c => calc_led_entry profile_rgb (b_scale * patt p d t r c)

theorem npClip_mem_unit (x : ℚ) : 0 ≤ npClip x 0 1 ∧ npClip x 0 1 ≤ 1 := by
  unfold npClip
  constructor
  · exact le_min (le_max_right x 0) zero_le_one
  · exact min_le_right _ _

theorem hls_v_mem_unit {m1 m2 : ℚ} (hue : ℚ)
    (h1 : 0 ≤ m1) (h2 : m1 ≤ 1) (h3 : 0 ≤ m2) (h4 : m2 ≤ 1) :
    0 ≤ hls_v m1 m2 hue ∧ hls_v m1 m2 hue ≤ 1 := by
  have hf0 : 0 ≤ Int.fract hue := Int.fract_nonneg hue
  have hf1 : Int.fract hue < 1 := Int.fract_lt_one hue
  unfold hls_v ONE_SIXTH TWO_THIRD
  split_ifs with i1 i2 i3
  · constructor
    · nlinarith [mul_nonneg h1 hf0, mul_nonneg h3 hf0]
    · nlinarith [mul_nonneg (sub_nonneg.mpr h2) (by linarith : (0:ℚ) ≤ 1 - 6 * Int.fract hue),
        mul_nonneg (sub_nonneg.mpr h4) hf0]
  · exact ⟨h3, h4⟩
  · constructor
    · nlinarith [mul_nonneg h1 (by linarith : (0:ℚ) ≤ Int.fract hue - 1/2),
        mul_nonneg h3 (by linarith : (0:ℚ) ≤ 2/3 - Int.fract hue)]
    · nlinarith [mul_nonneg (sub_nonneg.mpr h2) (by linarith : (0:ℚ) ≤ Int.fract hue - 1/2),
        mul_nonneg (sub_nonneg.mpr h4) (by linarith : (0:ℚ) ≤ 2/3 - Int.fract hue)]
  · exact ⟨h1, h2⟩

theorem colorsys_hls_to_rgb_mem_unit (h : ℚ) {l s : ℚ}
    (hl0 : 0 ≤ l) (hl1 : l ≤ 1) (hs0 : 0 ≤ s) (hs1 : s ≤ 1) :
    (0 ≤ (colorsys_hls_to_rgb h l s).1 ∧ (colorsys_hls_to_rgb h l s).1 ≤ 1) ∧
    (0 ≤ (colorsys_hls_to_rgb h l s).2.1 ∧ (colorsys_hls_to_rgb h l s).2.1 ≤ 1) ∧
    (0 ≤ (colorsys_hls_to_rgb h l s).2.2 ∧ (colorsys_hls_to_rgb h l s).2.2 ≤ 1) := by
  unfold colorsys_hls_to_rgb
  split_ifs with i1 i2
  · exact ⟨⟨hl0, hl1⟩, ⟨hl0, hl1⟩, ⟨hl0, hl1⟩⟩
  · have hm2a : 0 ≤ l * (1 + s) := mul_nonneg hl0 (by linarith)
    have hm2b : l * (1 + s) ≤ 1 := by nlinarith
    have hm1a : 0 ≤ 2 * l - l * (1 + s) := by nlinarith
    have hm1b : 2 * l - l * (1 + s) ≤ 1 := by nlinarith
    exact ⟨hls_v_mem_unit _ hm1a hm1b hm2a hm2b,
           hls_v_mem_unit _ hm1a hm1b hm2a hm2b,
           hls_v_mem_unit _ hm1a hm1b hm2a hm2b⟩
  · have hm2a : 0 ≤ l + s - l * s := by nlinarith
    have hm2b : l + s - l * s ≤ 1 := by nlinarith
    have hm1a : 0 ≤ 2 * l - (l + s - l * s) := by nlinarith
    have hm1b : 2 * l - (l + s - l * s) ≤ 1 := by nlinarith
    exact ⟨hls_v_mem_unit _ hm1a hm1b hm2a hm2b,
           hls_v_mem_unit _ hm1a hm1b hm2a hm2b,
           hls_v_mem_unit _ hm1a hm1b hm2a hm2b⟩

theorem colorsys_rgb_to_hls_l_s_mem_unit {r g b : ℚ}
    (hr0 : 0 ≤ r) (hr1 : r ≤ 1) (hg0 : 0 ≤ g) (hg1 : g ≤ 1)
    (hb0 : 0 ≤ b) (hb1 : b ≤ 1) :
    (0 ≤ (colorsys_rgb_to_hls r g b).2.1 ∧ (colorsys_rgb_to_hls r g b).2.1 ≤ 1) ∧
    (0 ≤ (colorsys_rgb_to_hls r g b).2.2 ∧ (colorsys_rgb_to_hls r g b).2.2 ≤ 1) := by
  have hmin0 : 0 ≤ min r (min g b) := le_min hr0 (le_min hg0 hb0)
  have hmax1 : max r (max g b) ≤ 1 := max_le hr1 (max_le hg1 hb1)
  have hminmax : min r (min g b) ≤ max r (max g b) :=
    le_trans (min_le_left _ _) (le_max_left _ _)
  by_cases hc : min r (min g b) = max r (max g b)
  · unfold colorsys_rgb_to_hls
    dsimp only
    rw [if_pos hc]
    exact ⟨⟨by dsimp only; linarith, by dsimp only; linarith⟩, le_refl 0, zero_le_one⟩
  · have hlt : min r (min g b) < max r (max g b) := lt_of_le_of_ne hminmax hc
    have hsum : 0 < max r (max g b) + min r (min g b) := by linarith
    have hden2 : 0 < 2 - max r (max g b) - min r (min g b) := by linarith
    unfold colorsys_rgb_to_hls
    dsimp only
    rw [if_neg hc]
    dsimp only
    split_ifs <;>
      refine ⟨⟨by linarith, by linarith⟩, ?_, ?_⟩ <;>
      first
        | exact div_nonneg (by linarith) hsum.le
        | exact div_nonneg (by linarith) hden2.le
        | (rw [div_le_one hsum]; linarith)
        | (rw [div_le_one hden2]; linarith)

theorem hls_to_rgb_tuple_mem_255 (hls : ℚ × ℚ × ℚ)
    (hl0 : 0 ≤ hls.2.1) (hl1 : hls.2.1 ≤ 1) (hs0 : 0 ≤ hls.2.2) (hs1 : hls.2.2 ≤ 1) :
    (0 ≤ (hls_to_rgb_tuple hls).1 ∧ (hls_to_rgb_tuple hls).1 ≤ 255) ∧
    (0 ≤ (hls_to_rgb_tuple hls).2.1 ∧ (hls_to_rgb_tuple hls).2.1 ≤ 255) ∧
    (0 ≤ (hls_to_rgb_tuple hls).2.2 ∧ (hls_to_rgb_tuple hls).2.2 ≤ 255) := by
  obtain ⟨⟨h1a, h1b⟩, ⟨h2a, h2b⟩, ⟨h3a, h3b⟩⟩ :=
    colorsys_hls_to_rgb_mem_unit hls.1 hl0 hl1 hs0 hs1
  unfold hls_to_rgb_tuple
  refine ⟨?_, ?_, ?_⟩ <;>
    exact pyRound_mem_Icc (by push_cast; linarith) (by push_cast; linarith)

theorem rgb_tuple_to_int_mem (t : ℤ × ℤ × ℤ)
    (hr : 0 ≤ t.1 ∧ t.1 ≤ 255) (hg : 0 ≤ t.2.1 ∧ t.2.1 ≤ 255)
    (hb : 0 ≤ t.2.2 ∧ t.2.2 ≤ 255) :
    0 ≤ rgb_tuple_to_int t ∧ rgb_tuple_to_int t ≤ 0xFFFFFF := by
  unfold rgb_tuple_to_int
  obtain ⟨hr0, hr1⟩ := hr
  obtain ⟨hg0, hg1⟩ := hg
  obtain ⟨hb0, hb1⟩ := hb
  omega

theorem rgb_tuple_to_hls_l_s_mem_unit {pr pg pb : ℚ}
    (hpr : 0 ≤ pr ∧ pr ≤ 255) (hpg : 0 ≤ pg ∧ pg ≤ 255) (hpb : 0 ≤ pb ∧ pb ≤ 255) :
    (0 ≤ (rgb_tuple_to_hls (pr, pg, pb)).2.1 ∧ (rgb_tuple_to_hls (pr, pg, pb)).2.1 ≤ 1) ∧
    (0 ≤ (rgb_tuple_to_hls (pr, pg, pb)).2.2 ∧ (rgb_tuple_to_hls (pr, pg, pb)).2.2 ≤ 1) := by
  have h255 : (0:ℚ) < 255 := by norm_num
  unfold rgb_tuple_to_hls
  exact colorsys_rgb_to_hls_l_s_mem_unit
    (div_nonneg hpr.1 h255.le) ((div_le_one h255).mpr hpr.2)
    (div_nonneg hpg.1 h255.le) ((div_le_one h255).mpr hpg.2)
    (div_nonneg hpb.1 h255.le) ((div_le_one h255).mpr hpb.2)

theorem calc_led_entry_mem {pr pg pb : ℚ}
    (hpr : 0 ≤ pr ∧ pr ≤ 255) (hpg : 0 ≤ pg ∧ pg ≤ 255) (hpb : 0 ≤ pb ∧ pb ≤ 255)
    (bb : ℚ) :
    0 ≤ calc_led_entry (pr, pg, pb) bb ∧ calc_led_entry (pr, pg, pb) bb ≤ 0xFFFFFF := by
  obtain ⟨⟨hl0, hl1⟩, ⟨hs0, hs1⟩⟩ := rgb_tuple_to_hls_l_s_mem_unit hpr hpg hpb
  have hclip := npClip_mem_unit (bb * (rgb_tuple_to_hls (pr, pg, pb)).2.1)
  have htuple := hls_to_rgb_tuple_mem_255
    ((rgb_tuple_to_hls (pr, pg, pb)).1,
     npClip (bb * (rgb_tuple_to_hls (pr, pg, pb)).2.1) 0 1,
     (rgb_tuple_to_hls (pr, pg, pb)).2.2)
    hclip.1 hclip.2 hs0 hs1
  unfold calc_led_entry
  exact rgb_tuple_to_int_mem _ htuple.1 htuple.2.1 htuple.2.2

/-! ### Brightness pattern functions (model_helper.py lines 396-563)

`_pattern_come_in` uses `np.sin`, embedded over ℝ with `Real.sin`;
`_pattern_range` is rational. Both first apply the shadow-control override
for row indices in `SHADOW_CONTROL_ROWS`. -/

def SHADOW_CONTROL_ROWS : List ℕ := [0]
def SHADOW_CONTROL_COLUMNS : List ℕ := [0, 2, 4, 6, 8]
def SHADOW_CONTROL_BRIGHTNESS : ℚ := 1

/-- The travelling-wave factor of `_pattern_come_in` (line 426):
`np.abs(np.sin(np.pi * ((c_ix - col_inc*(t % tpc)) / (n_c - 1))) if n_c > 1
else 1.0)` with `col_inc = n_c / tpc`. -/
noncomputable def come_in_wave (c_ix n_c t tpc : ℕ) : ℝ :=
  |if 1 < n_c then
      Real.sin (Real.pi *
        (((c_ix : ℝ) - (n_c : ℝ) / (tpc : ℝ) * ((t % tpc : ℕ) : ℝ)) / ((n_c : ℝ) - 1)))
    else 1|

/-- The breath-envelope factor of `_pattern_come_in` (line 429):
`np.abs(np.sin(np.pi * breath_inc * t))` with `breath_inc = 1.0 / tpc`. -/
noncomputable def come_in_breath (t tpc : ℕ) : ℝ :=
  |Real.sin (Real.pi * ((1 : ℝ) / (tpc : ℝ)) * (t : ℝ))|

/-- Source `_pattern_come_in` (model_helper.py lines 396-447): shadow-control
override, otherwise `b_fixed + (1 - b_fixed) * b_adj` with `b_fixed = 0.3`
and `b_adj` the product of the travelling wave and the breath envelope. -/
noncomputable def pattern_come_in (_comp : String) (r_ix c_ix : ℕ) (_n_r : ℕ) (n_c t : ℕ) (_dist _prox : ℕ) (tpc : ℕ) : ℝ :=
  if r_ix ∈ SHADOW_CONTROL_ROWS then
    (if c_ix ∈ SHADOW_CONTROL_COLUMNS then (SHADOW_CONTROL_BRIGHTNESS : ℝ) else 0)
  else
    0.3 + (1 - 0.3) * (come_in_wave c_ix n_c t tpc * come_in_breath t tpc)

/-- The forced-border condition of `_pattern_range` (line 534):
`(r_ix in [1, n_r-1]) or (c_ix in [0, n_c-1])`, with Python integer
subtraction. -/
def range_border (r_ix c_ix n_r n_c : ℕ) : Prop :=
  (r_ix : ℤ) = 1 ∨ (r_ix : ℤ) = (n_r : ℤ) - 1 ∨ (c_ix : ℤ) = 0 ∨ (c_ix : ℤ) = (n_c : ℤ) - 1

instance range_border_dec (r_ix c_ix n_r n_c : ℕ) :
    Decidable (range_border r_ix c_ix n_r n_c) := by
  unfold range_border
  infer_instance

/-- Source `_pattern_range` (model_helper.py lines 517-549): shadow-control
override, then the forced border, then the bilinear ramp
`(r_ix/(n_r-1) if n_r > 1 else 1.0) * (c_ix/(n_c-1) if n_c > 1 else 1.0)`. -/
def pattern_range (_comp : String) (r_ix c_ix n_r n_c : ℕ) (_t _dist _prox : ℕ) : ℚ :=
  if r_ix ∈ SHADOW_CONTROL_ROWS then
    (if c_ix ∈ SHADOW_CONTROL_COLUMNS then SHADOW_CONTROL_BRIGHTNESS else 0)
  else if range_border r_ix c_ix n_r n_c then 1
  else (if 1 < n_r then (r_ix : ℚ) / ((n_r : ℚ) - 1) else 1) *
       (if 1 < n_c then (c_ix : ℚ) / ((n_c : ℚ) - 1) else 1)

theorem update_d_idx_zero : update_d_idx 0 = 0 := by
  unfold update_d_idx npClip N_LED_PATTERN_DISTANCE pyRound
  norm_num

theorem update_d_idx_one : update_d_idx 1 = 9 := by
  unfold update_d_idx npClip N_LED_PATTERN_DISTANCE pyRound
  norm_num

/-! ## Claim theorems -/

/-- Claim C3: for every pair of booleans (entrance_near, exit_near) the
proximity index computed by `update_led_pattern` equals entrance*1 + exit*2
(bit0 = entrance, bit1 = exit), the encoding is a bijection from the four
boolean pairs onto {0,1,2,3}, and the index always lies in [0,4). -/
theorem claim_C3_proximity_bijection :
    (∀ e x : Bool, update_p_idx e x = (cond e 1 0) * 1 + (cond x 1 0) * 2) ∧
    (∀ e x : Bool, update_p_idx e x < N_LED_PATTERN_PROXIMITY) ∧
    Function.Bijective (fun p : Bool × Bool =>
      (⟨update_p_idx p.1 p.2, by cases p.1 <;> cases p.2 <;> decide⟩ : Fin 4)) := by
  refine ⟨by decide, by decide, by decide⟩

/-- Claim C5: for every normalized distance d in [0,1] the distance index of
`update_led_pattern` equals round(d*9) (round half to even, as `np.round`)
and lies in [0,9]; d=0 maps to 0 and d=1 maps to 9. -/
theorem claim_C5_distance_index (d : ℚ) (h0 : 0 ≤ d) (h1 : d ≤ 1) :
    update_d_idx d = pyRound (d * 9) ∧
    0 ≤ update_d_idx d ∧ update_d_idx d ≤ 9 ∧
    update_d_idx 0 = 0 ∧ update_d_idx 1 = 9 := by
  have hclip : npClip d 0 1 = d := by
    unfold npClip
    rw [max_eq_left h0, min_eq_left h1]
  have heq : update_d_idx d = pyRound (d * 9) := by
    unfold update_d_idx N_LED_PATTERN_DISTANCE
    rw [hclip]
    norm_num
  refine ⟨heq, ?_, ?_, update_d_idx_zero, update_d_idx_one⟩
  · rw [heq]
    exact (pyRound_mem_Icc (a := 0) (b := 9) (by push_cast; nlinarith)
      (by push_cast; nlinarith)).1
  · rw [heq]
    exact (pyRound_mem_Icc (a := 0) (b := 9) (by push_cast; nlinarith)
      (by push_cast; nlinarith)).2

/-- Witness for C5 at d = 1/2. -/
theorem claim_C5_distance_index_witness :
    update_d_idx (1/2) = pyRound ((1/2 : ℚ) * 9) ∧
    0 ≤ update_d_idx (1/2) ∧ update_d_idx (1/2) ≤ 9 ∧
    update_d_idx 0 = 0 ∧ update_d_idx 1 = 9 :=
  claim_C5_distance_index (1/2) (by norm_num) (by norm_num)

/-- Claim C1 (refuted: code bug): `update_led_pattern` performs no averaging
of distance channels and has no default for an absent reading. On the values
the main loop actually passes (`None` before the first sensor report, or the
channel pair returned by `normalize_distance`) the computation raises
`TypeError` (modelled `none`) instead of behaving as distance 1.0; the
spec-modelled reduction of an all-absent reading is 1.0, whose index would
be 9. -/
theorem claim_C1_distance_reduction_bug :
    update_d_idx_reading .absent = none ∧
    update_d_idx_reading (.channels none none) = none ∧
    update_d_idx_reading (.channels (some (1/2)) none) = none ∧
    spec_reduce_distance (.channels none none) = 1 ∧
    update_d_idx (spec_reduce_distance (.channels none none)) = 9 := by
  refine ⟨rfl, rfl, rfl, rfl, ?_⟩
  rw [show spec_reduce_distance (.channels none none) = 1 from rfl]
  exact update_d_idx_one

/-- Claim C4: with cycle_time = 2.0 and LED_TIMESTEP_SEC = 0.05 the computed
timesteps_per_cycle is 40 (and agrees with round(cycle_time/LED_TIMESTEP_SEC),
the quotient being exactly 40); rendering at timestep 40 selects exactly the
same buffer frame as timestep 0 (t_idx = timestep mod timesteps_per_cycle). -/
theorem claim_C4_idle_wraparound :
    timesteps_per_cycle_calc 2 LED_TIMESTEP_SEC = 40 ∧
    timesteps_per_cycle_calc 2 LED_TIMESTEP_SEC = pyRound (2 / LED_TIMESTEP_SEC) ∧
    update_t_idx 40 40 = update_t_idx 0 40 ∧
    ∀ (α : Type) (buf : ℕ → ℤ → ℕ → α) (p : ℕ) (d : ℤ),
      lookup_frame buf p d 40 40 = lookup_frame buf p d 0 40 := by
  refine ⟨?_, ?_, by decide, ?_⟩
  · unfold timesteps_per_cycle_calc pyIntTrunc LED_TIMESTEP_SEC
    norm_num
  · unfold timesteps_per_cycle_calc pyIntTrunc pyRound LED_TIMESTEP_SEC
    norm_num
  · intro α buf p d
    rfl

theorem load_or_generate_of_lookup_some {β : Type} (gen : String → β)
    {files : List (String × β)} {scen : String} {b : β}
    (h : files.lookup (scenario_file_name scen) = some b) :
    load_or_generate_scenario gen files scen = ⟨b, files, false⟩ := by
  unfold load_or_generate_scenario
  rw [h]

theorem load_or_generate_of_lookup_none {β : Type} (gen : String → β)
    {files : List (String × β)} {scen : String}
    (h : files.lookup (scenario_file_name scen) = none) :
    load_or_generate_scenario gen files scen =
      ⟨gen scen, (scenario_file_name scen, gen scen) :: files, true⟩ := by
  unfold load_or_generate_scenario
  rw [h]

/-- Claim C2: activating the same scenario twice is idempotent. After any
first activation, the second call finds the cache file, loads it without
invoking the generator (generated = false), and its buffer is bit-identical
to the first activation's buffer; and whenever the file already exists, the
buffer is loaded (never recomputed) and the file store is unchanged. -/
theorem claim_C2_activation_idempotent {β : Type} (gen : String → β)
    (files : List (String × β)) (scen : String) :
    ( load_or_generate_scenario gen
        ( load_or_generate_scenario gen files scen).files scen).buffer
      = ( load_or_generate_scenario gen files scen).buffer ∧
    ( load_or_generate_scenario gen
        ( load_or_generate_scenario gen files scen).files scen).generated = false ∧
    (∀ b : β, files.lookup (scenario_file_name scen) = some b →
      load_or_generate_scenario gen files scen = ⟨b, files, false⟩) := by
  cases hl : files.lookup (scenario_file_name scen) with
  | some b =>
      have h1 := load_or_generate_of_lookup_some gen hl
      refine ⟨by simp [h1], by simp [h1], ?_⟩
      intro b2 hb2
      injection hb2 with hbb
      subst hbb
      exact h1
  | none =>
      have h1 := load_or_generate_of_lookup_none gen hl
      have h2 := load_or_generate_of_lookup_some gen
        (lookup_cons_self (scenario_file_name scen) (gen scen) files)
      refine ⟨by simp [h1, h2], by simp [h1, h2], ?_⟩
      intro b2 hb2
      simp at hb2

/-- Witness for C2: with the Idle cache file present, activation loads the
stored buffer, leaves the file store unchanged, and does not generate. -/
theorem claim_C2_activation_idempotent_witness :
    load_or_generate_scenario (fun _ => (7 : ℤ)) [("scen_idle.npz", 5)] "Idle" =
      ⟨5, [("scen_idle.npz", 5)], false⟩ :=
  (claim_C2_activation_idempotent (fun _ => (7 : ℤ))
    [("scen_idle.npz", 5)] "Idle").2.2 5 (by decide)

/-- Claim C7: `normalize_distance` is total (every exception path is caught):
the right channel's output is always absent (that sensor is permanently
non-functional), an absent input (no tuple, or an absent left reading)
yields an absent left output, absent fit parameters yield an absent output,
and a present left reading with fitted parameters is normalized to
intercept + slope * raw_distance. -/
theorem claim_C7_normalize_distance (polys : Option LinPoly)
    (d : Option (Option ℚ × Option ℚ)) :
    (normalize_distance polys d).2 = none ∧
    (d = none → (normalize_distance polys d).1 = none) ∧
    (∀ r, d = some (none, r) → (normalize_distance polys d).1 = none) ∧
    (polys = none → (normalize_distance polys d).1 = none) ∧
    (∀ p x r, polys = some p → d = some (some x, r) →
      (normalize_distance polys d).1 = some (p.intercept + p.slope * x)) := by
  rcases polys with _ | p <;> rcases d with _ | ⟨_ | x, xr⟩ <;>
    refine ⟨rfl, ?_, ?_, ?_, ?_⟩ <;> intros <;> simp_all [normalize_distance]

/-- Witness for C7 at fitted parameters (2, -3) and left reading 5. -/
theorem claim_C7_normalize_distance_witness :
    (normalize_distance (some ⟨2, -3⟩) (some (some 5, none))).1 = some (2 + -3 * 5) :=
  (claim_C7_normalize_distance (some ⟨2, -3⟩) (some (some 5, none))).2.2.2.2
    ⟨2, -3⟩ 5 none rfl rfl

/-- Claim C9 (refuted: code bug): the keypad command surface is not disabled
in unattended mode. `os.environ.get` returns a string, so the comparison
with the int 1 is always false and `unattended_mode` can never be `True`
even with LL_UNATTENDED set; and the guards use `~unattended_mode`, the
bitwise complement (-1 or -2, both truthy), so even with
`unattended_mode = True` every key combination still executes its action. -/
theorem claim_C9_keypad_unattended_bug :
    unattended_mode [("LL_UNATTENDED", "1")] = false ∧
    keypad_dispatch (unattended_mode [("LL_UNATTENDED", "1")]) [1, 2, 3, 4]
      = .exitProgram ∧
    keypad_dispatch true [1, 2, 3, 4] = .exitProgram ∧
    keypad_dispatch true [3, 4] = .highlightTenth ∧
    keypad_dispatch true [2, 4] = .pickScen ∧
    keypad_dispatch true [1, 4] = .calibrate := by
  decide

theorem come_in_wave_mem_unit (c_ix n_c t tpc : ℕ) :
    0 ≤ come_in_wave c_ix n_c t tpc ∧ come_in_wave c_ix n_c t tpc ≤ 1 := by
  unfold come_in_wave
  refine ⟨abs_nonneg _, ?_⟩
  split_ifs with h
  · exact abs_le.mpr ⟨Real.neg_one_le_sin _, Real.sin_le_one _⟩
  · simp

theorem come_in_breath_mem_unit (t tpc : ℕ) :
    0 ≤ come_in_breath t tpc ∧ come_in_breath t tpc ≤ 1 := by
  unfold come_in_breath
  exact ⟨abs_nonneg _, abs_le.mpr ⟨Real.neg_one_le_sin _, Real.sin_le_one _⟩⟩

/-- Claim C6: on every LED cell whose row is not a shadow-control row,
`_pattern_come_in` returns exactly b_fixed + (1-b_fixed) * wave * breath with
b_fixed = 0.3, the travelling-wave and breath factors lie in [0,1], and hence
the brightness lies in [0.3, 1.0] (never fully dark) for every component,
cell, timestep, distance index and proximity index. -/
theorem claim_C6_come_in_composite (comp : String)
    (r_ix c_ix n_r n_c t dist prox tpc : ℕ) (h : r_ix ∉ SHADOW_CONTROL_ROWS) :
    pattern_come_in comp r_ix c_ix n_r n_c t dist prox tpc =
      0.3 + (1 - 0.3) * (come_in_wave c_ix n_c t tpc * come_in_breath t tpc) ∧
    (0 ≤ come_in_wave c_ix n_c t tpc ∧ come_in_wave c_ix n_c t tpc ≤ 1) ∧
    (0 ≤ come_in_breath t tpc ∧ come_in_breath t tpc ≤ 1) ∧
    0.3 ≤ pattern_come_in comp r_ix c_ix n_r n_c t dist prox tpc ∧
    pattern_come_in comp r_ix c_ix n_r n_c t dist prox tpc ≤ 1 := by
  have hw := come_in_wave_mem_unit c_ix n_c t tpc
  have hb := come_in_breath_mem_unit t tpc
  have heq : pattern_come_in comp r_ix c_ix n_r n_c t dist prox tpc =
      0.3 + (1 - 0.3) * (come_in_wave c_ix n_c t tpc * come_in_breath t tpc) := by
    unfold pattern_come_in
    rw [if_neg h]
  have hprod0 : 0 ≤ come_in_wave c_ix n_c t tpc * come_in_breath t tpc :=
    mul_nonneg hw.1 hb.1
  have hprod1 : come_in_wave c_ix n_c t tpc * come_in_breath t tpc ≤ 1 := by
    calc come_in_wave c_ix n_c t tpc * come_in_breath t tpc
        ≤ 1 * come_in_breath t tpc := mul_le_mul_of_nonneg_right hw.2 hb.1
      _ = come_in_breath t tpc := one_mul _
      _ ≤ 1 := hb.2
  refine ⟨heq, hw, hb, ?_, ?_⟩ <;> rw [heq] <;> nlinarith

/-- Witness for C6 at the non-shadow cell (1,0) of the 10×9 grid,
timestep 0, tpc 80. -/
theorem claim_C6_come_in_composite_witness :
    pattern_come_in "Left" 1 0 10 9 0 0 0 80 =
      0.3 + (1 - 0.3) * (come_in_wave 0 9 0 80 * come_in_breath 0 80) ∧
    (0 ≤ come_in_wave 0 9 0 80 ∧ come_in_wave 0 9 0 80 ≤ 1) ∧
    (0 ≤ come_in_breath 0 80 ∧ come_in_breath 0 80 ≤ 1) ∧
    0.3 ≤ pattern_come_in "Left" 1 0 10 9 0 0 0 80 ∧
    pattern_come_in "Left" 1 0 10 9 0 0 0 80 ≤ 1 :=
  claim_C6_come_in_composite "Left" 1 0 10 9 0 0 0 80 (by decide)

/-- Claim C8 as stated is false: the shadow-control override puts full
brightness at cell (0,2), which is not a forced-border cell, yet the
strictly interior cell (2,2) below and right of it is dimmer — monotonicity
fails on a pair excluded by neither side condition of the claim. -/
theorem claim_C8_counterexample :
    (0 : ℕ) ≤ 2 ∧ (2 : ℕ) ≤ 2 ∧
    ¬ range_border 0 2 10 9 ∧ ¬ range_border 2 2 10 9 ∧
    pattern_range "Left" 2 2 10 9 0 0 0 < pattern_range "Left" 0 2 10 9 0 0 0 := by
  refine ⟨by decide, by decide, by decide, by decide, ?_⟩
  have h1 : pattern_range "Left" 0 2 10 9 0 0 0 = 1 := by
    unfold pattern_range SHADOW_CONTROL_ROWS SHADOW_CONTROL_COLUMNS
      SHADOW_CONTROL_BRIGHTNESS
    norm_num
  have h2 : pattern_range "Left" 2 2 10 9 0 0 0 = 1/18 := by
    unfold pattern_range SHADOW_CONTROL_ROWS SHADOW_CONTROL_COLUMNS
    rw [if_neg (by decide), if_neg (by decide)]
    norm_num
  rw [h1, h2]
  norm_num

/-- Claim C8 amended: excluding shadow-control-row cells as well as
forced-border cells, `_pattern_range` is monotonically non-decreasing in both
the row index and the column index, for every component, timestep, distance
index and proximity index. -/
theorem claim_C8_range_monotone (comp : String) (n_r n_c r1 c1 r2 c2 t dist prox : ℕ)
    (hs1 : r1 ∉ SHADOW_CONTROL_ROWS) (hs2 : r2 ∉ SHADOW_CONTROL_ROWS)
    (hb1 : ¬ range_border r1 c1 n_r n_c) (hb2 : ¬ range_border r2 c2 n_r n_c)
    (hr : r1 ≤ r2) (hcc : c1 ≤ c2) :
    pattern_range comp r1 c1 n_r n_c t dist prox ≤
      pattern_range comp r2 c2 n_r n_c t dist prox := by
  unfold pattern_range
  rw [if_neg hs1, if_neg hs2, if_neg hb1, if_neg hb2]
  have hrow1 : (0:ℚ) ≤ (if 1 < n_r then (r1 : ℚ) / ((n_r : ℚ) - 1) else 1) := by
    split_ifs with hn
    · have : (1:ℚ) < (n_r : ℚ) := by exact_mod_cast hn
      exact div_nonneg (by positivity) (by linarith)
    · exact zero_le_one
  have hcol1 : (0:ℚ) ≤ (if 1 < n_c then (c1 : ℚ) / ((n_c : ℚ) - 1) else 1) := by
    split_ifs with hn
    · have : (1:ℚ) < (n_c : ℚ) := by exact_mod_cast hn
      exact div_nonneg (by positivity) (by linarith)
    · exact zero_le_one
  have hrow : (if 1 < n_r then (r1 : ℚ) / ((n_r : ℚ) - 1) else 1) ≤
      (if 1 < n_r then (r2 : ℚ) / ((n_r : ℚ) - 1) else 1) := by
    split_ifs with hn
    · have hpos : (0:ℚ) < (n_r : ℚ) - 1 := by
        have : (1:ℚ) < (n_r : ℚ) := by exact_mod_cast hn
        linarith
      exact (div_le_div_iff_of_pos_right hpos).mpr (by exact_mod_cast hr)
    · exact le_refl 1
  have hcol : (if 1 < n_c then (c1 : ℚ) / ((n_c : ℚ) - 1) else 1) ≤
      (if 1 < n_c then (c2 : ℚ) / ((n_c : ℚ) - 1) else 1) := by
    split_ifs with hn
    · have hpos : (0:ℚ) < (n_c : ℚ) - 1 := by
        have : (1:ℚ) < (n_c : ℚ) := by exact_mod_cast hn
        linarith
      exact (div_le_div_iff_of_pos_right hpos).mpr (by exact_mod_cast hcc)
    · exact le_refl 1
  exact mul_le_mul hrow hcol hcol1 (le_trans hrow1 hrow)

/-- Witness for the amended C8: inside the 10×9 grid, cell (2,1) is no
brighter than cell (3,4). -/
theorem claim_C8_range_monotone_witness :
    pattern_range "Left" 2 1 10 9 0 0 0 ≤ pattern_range "Left" 3 4 10 9 0 0 0 :=
  claim_C8_range_monotone "Left" 10 9 2 1 3 4 0 0 0
    (by decide) (by decide) (by decide) (by decide) (by decide) (by decide)

/-- Claim C10: every entry of the per-component LED pattern buffers and of
led_array is an integer in [0, 0xFFFFFF]. The buffers are zero-initialized;
every generated entry is produced by clipping the adjusted lightness to
[0,1], converting HLS to an RGB tuple whose channels lie in [0,255], and
packing it as (r<<16)+(g<<8)+b, which is at most 0xFFFFFF; the render
lookup copies buffer entries unchanged; and a cache file the program itself
wrote loads back as exactly the stored buffer. -/
theorem claim_C10_entries_in_24_bits {pr pg pb : ℚ}
    (hpr : 0 ≤ pr ∧ pr ≤ 255) (hpg : 0 ≤ pg ∧ pg ≤ 255) (hpb : 0 ≤ pb ∧ pb ≤ 255) :
    (∀ p d t r c, led_pattern_buffer_init p d t r c = 0) ∧
    (∀ bb : ℚ,
      (0 ≤ (hls_to_rgb_tuple ((rgb_tuple_to_hls (pr, pg, pb)).1,
              npClip (bb * (rgb_tuple_to_hls (pr, pg, pb)).2.1) 0 1,
              (rgb_tuple_to_hls (pr, pg, pb)).2.2)).1 ∧
        (hls_to_rgb_tuple ((rgb_tuple_to_hls (pr, pg, pb)).1,
              npClip (bb * (rgb_tuple_to_hls (pr, pg, pb)).2.1) 0 1,
              (rgb_tuple_to_hls (pr, pg, pb)).2.2)).1 ≤ 255) ∧
      (0 ≤ (hls_to_rgb_tuple ((rgb_tuple_to_hls (pr, pg, pb)).1,
              npClip (bb * (rgb_tuple_to_hls (pr, pg, pb)).2.1) 0 1,
              (rgb_tuple_to_hls (pr, pg, pb)).2.2)).2.1 ∧
        (hls_to_rgb_tuple ((rgb_tuple_to_hls (pr, pg, pb)).1,
              npClip (bb * (rgb_tuple_to_hls (pr, pg, pb)).2.1) 0 1,
              (rgb_tuple_to_hls (pr, pg, pb)).2.2)).2.1 ≤ 255) ∧
      (0 ≤ (hls_to_rgb_tuple ((rgb_tuple_to_hls (pr, pg, pb)).1,
              npClip (bb * (rgb_tuple_to_hls (pr, pg, pb)).2.1) 0 1,
              (rgb_tuple_to_hls (pr, pg, pb)).2.2)).2.2 ∧
        (hls_to_rgb_tuple ((rgb_tuple_to_hls (pr, pg, pb)).1,
              npClip (bb * (rgb_tuple_to_hls (pr, pg, pb)).2.1) 0 1,
              (rgb_tuple_to_hls (pr, pg, pb)).2.2)).2.2 ≤ 255)) ∧
    (∀ (b_scale : ℚ) (patt : ℕ → ℕ → ℕ → ℕ → ℕ → ℚ) (p d t r c : ℕ),
      0 ≤ generate_led_buffer (pr, pg, pb) b_scale patt p d t r c ∧
      generate_led_buffer (pr, pg, pb) b_scale patt p d t r c ≤ 0xFFFFFF) ∧
    (∀ (buf : ℕ → ℤ → ℕ → ℕ → ℕ → ℤ),
      (∀ (p : ℕ) (d : ℤ) (t r c : ℕ), 0 ≤ buf p d t r c ∧ buf p d t r c ≤ 0xFFFFFF) →
      ∀ (p : ℕ) (d : ℤ) (t tpc r c : ℕ),
        0 ≤ lookup_frame buf p d t tpc r c ∧
        lookup_frame buf p d t tpc r c ≤ 0xFFFFFF) ∧
    (∀ (files : List (String × (ℕ → ℕ → ℕ → ℕ → ℕ → ℤ))) (scen : String)
        (buf : ℕ → ℕ → ℕ → ℕ → ℕ → ℤ),
      List.lookup (scenario_file_name scen) ((scenario_file_name scen, buf) :: files)
        = some buf) := by
  obtain ⟨⟨hl0, hl1⟩, ⟨hs0, hs1⟩⟩ := rgb_tuple_to_hls_l_s_mem_unit hpr hpg hpb
  refine ⟨fun _ _ _ _ _ => rfl, ?_, ?_, ?_, ?_⟩
  · intro bb
    exact hls_to_rgb_tuple_mem_255 _
      (npClip_mem_unit (bb * (rgb_tuple_to_hls (pr, pg, pb)).2.1)).1
      (npClip_mem_unit (bb * (rgb_tuple_to_hls (pr, pg, pb)).2.1)).2 hs0 hs1
  · intro b_scale patt p d t r c
    exact calc_led_entry_mem hpr hpg hpb (b_scale * patt p d t r c)
  · intro buf H p d t tpc r c
    exact H p d (update_t_idx t tpc) r c
  · intro files scen buf
    exact lookup_cons_self (scenario_file_name scen) buf files

/-- Witness for C10 at the Candle profile (255,147,41), brightness scale 1/2
and a constant 1/3 pattern. -/
theorem claim_C10_entries_in_24_bits_witness :
    0 ≤ generate_led_buffer (255, 147, 41) (1/2) (fun _ _ _ _ _ => 1/3) 0 0 0 0 0 ∧
    generate_led_buffer (255, 147, 41) (1/2) (fun _ _ _ _ _ => 1/3) 0 0 0 0 0
      ≤ 0xFFFFFF :=
  (claim_C10_entries_in_24_bits (by norm_num) (by norm_num) (by norm_num)).2.2.1
    (1/2) (fun _ _ _ _ _ => 1/3) 0 0 0 0 0

end LivingLight
